import Mathlib

/-!
# Verification of the file-transfer protocol engine

A shallow embedding, in Lean, of the core of the `file-transfer` repository:
the big-endian byte codec (`src/binary/PrimitiveConverter.hpp`,
`src/binary/BinaryReaderWriter.cpp`), the length-prefixed frame codec
(`src/net/Framing.cpp`), the typed packet layer
(`src/net/protocol/ProtocolConnection.cpp`), the receiver state machine
(`src/tools/receiver/Connection.cpp`) and the sender's per-file upload
pipeline (`src/tools/sender/Connection.cpp`).

Bytes are modelled as `Nat` values; every place the C++ type system
truncates to `uint8_t` the model applies `% 256` explicitly. Buffers are
`List Nat`. Fallible reads return `Option`. External collaborators
(filesystem, socket, zstd) appear as explicit parameters or as a small
filesystem model carried in the connection state.
-/

namespace FileTransfer

/-! ## Byte codec (`PrimitiveConverter.hpp`)

`uN_to_bytes` splits a value into big-endian bytes, truncating each shifted
word to `uint8_t` (`% 256` here).  `bytes_to_uN` reassembles the value; in
the source the bytes are `uint8_t` so each is below 256, which the model
makes explicit with `% 256`; the or-of-disjoint-shifts of the source is
written as the equal sum-of-products. -/

def u16_to_bytes (v : Nat) : List Nat :=
  [v / 2 ^ 8 % 256, v % 256]

def u32_to_bytes (v : Nat) : List Nat :=
  [v / 2 ^ 24 % 256, v / 2 ^ 16 % 256, v / 2 ^ 8 % 256, v % 256]

def u64_to_bytes (v : Nat) : List Nat :=
  [v / 2 ^ 56 % 256, v / 2 ^ 48 % 256, v / 2 ^ 40 % 256, v / 2 ^ 32 % 256,
   v / 2 ^ 24 % 256, v / 2 ^ 16 % 256, v / 2 ^ 8 % 256, v % 256]

def bytes_to_u16 (b0 b1 : Nat) : Nat :=
  b0 % 256 * 2 ^ 8 + b1 % 256

def bytes_to_u32 (b0 b1 b2 b3 : Nat) : Nat :=
  b0 % 256 * 2 ^ 24 + b1 % 256 * 2 ^ 16 + b2 % 256 * 2 ^ 8 + b3 % 256

def bytes_to_u64 (b0 b1 b2 b3 b4 b5 b6 b7 : Nat) : Nat :=
  b0 % 256 * 2 ^ 56 + b1 % 256 * 2 ^ 48 + b2 % 256 * 2 ^ 40 + b3 % 256 * 2 ^ 32 +
  b4 % 256 * 2 ^ 24 + b5 % 256 * 2 ^ 16 + b6 % 256 * 2 ^ 8 + b7 % 256

theorem bytes_to_u16_u16_to_bytes (v : Nat) (h : v < 2 ^ 16) :
    bytes_to_u16 (v / 2 ^ 8 % 256) (v % 256) = v := by
  unfold bytes_to_u16
  omega

set_option maxHeartbeats 1000000 in
theorem bytes_to_u32_u32_to_bytes (v : Nat) (h : v < 2 ^ 32) :
    bytes_to_u32 (v / 2 ^ 24 % 256) (v / 2 ^ 16 % 256) (v / 2 ^ 8 % 256) (v % 256) = v := by
  unfold bytes_to_u32
  omega

set_option maxHeartbeats 4000000 in
theorem bytes_to_u64_u64_to_bytes (v : Nat) (h : v < 2 ^ 64) :
    bytes_to_u64 (v / 2 ^ 56 % 256) (v / 2 ^ 48 % 256) (v / 2 ^ 40 % 256) (v / 2 ^ 32 % 256)
      (v / 2 ^ 24 % 256) (v / 2 ^ 16 % 256) (v / 2 ^ 8 % 256) (v % 256) = v := by
  unfold bytes_to_u64
  omega

/-! ## Binary reader (`BinaryReaderWriter.cpp`)

`BinaryReader` holds the remaining buffer; each read either fails (buffer
too short, mirroring `read_bytes_array` / `read_bytes` returning `false`) or
returns the decoded value together with the advanced reader. -/

structure BReader where
  buffer : List Nat
deriving Repr, DecidableEq

def BReader.remaining_size (r : BReader) : Nat :=
  r.buffer.length

def BReader.read_bytes (r : BReader) (size : Nat) : Option (List Nat × BReader) :=
  if r.buffer.length < size then none
  else some (r.buffer.take size, ⟨r.buffer.drop size⟩)

def BReader.read_u8 (r : BReader) : Option (Nat × BReader) :=
  match r.buffer with
  | b0 :: rest => some (b0 % 256, ⟨rest⟩)
  | _ => none

def BReader.read_u16 (r : BReader) : Option (Nat × BReader) :=
  match r.buffer with
  | b0 :: b1 :: rest => some (bytes_to_u16 b0 b1, ⟨rest⟩)
  | _ => none

def BReader.read_u32 (r : BReader) : Option (Nat × BReader) :=
  match r.buffer with
  | b0 :: b1 :: b2 :: b3 :: rest => some (bytes_to_u32 b0 b1 b2 b3, ⟨rest⟩)
  | _ => none

def BReader.read_u64 (r : BReader) : Option (Nat × BReader) :=
  match r.buffer with
  | b0 :: b1 :: b2 :: b3 :: b4 :: b5 :: b6 :: b7 :: rest =>
    some (bytes_to_u64 b0 b1 b2 b3 b4 b5 b6 b7, ⟨rest⟩)
  | _ => none

/-! ## Packets (`Packet.hpp`) -/

inductive Packet where
  | receiverHello
  | senderHello
  | acknowledged (accepted : Bool)
  | createDirectory (path : List Nat)
  | createFile (path : List Nat) (size : Nat) (flags : Nat)
  | fileChunk (data : List Nat)
  | verifyFile (hash : Nat)
deriving Repr, DecidableEq

/-- `PacketID` numeric tags: Invalid=0, ReceiverHello=1, SenderHello=2,
Acknowledged=3, CreateDirectory=4, CreateFile=5, FileChunk=6, VerifyFile=7. -/
def Packet.tag : Packet → Nat
  | .receiverHello => 1
  | .senderHello => 2
  | .acknowledged _ => 3
  | .createDirectory _ => 4
  | .createFile _ _ _ => 5
  | .fileChunk _ => 6
  | .verifyFile _ => 7

/-! ## Packet serialization (`ProtocolConnection.cpp`, `serialize_packet`)

The translation unit defines `serialize_packet` overloads for ReceiverHello,
SenderHello, Acknowledged, CreateDirectory, CreateFile and FileChunk only;
the VerifyFile overload is declared in `ProtocolConnection.hpp` but has no
definition in `ProtocolConnection.cpp`, which the model renders as `none`.
`serialize_packet(CreateFile)` writes the 16-bit tag, the 64-bit size and
the path bytes; it does not write the packet's `flags` field. -/

def serialize_packet : Packet → Option (List Nat)
  | .receiverHello => some (u16_to_bytes 1)
  | .senderHello => some (u16_to_bytes 2)
  | .acknowledged accepted => some (u16_to_bytes 3 ++ [if accepted then 1 else 0])
  | .createDirectory path => some (u16_to_bytes 4 ++ path)
  | .createFile path size _flags => some (u16_to_bytes 5 ++ u64_to_bytes size ++ path)
  | .fileChunk data => some (u16_to_bytes 6 ++ data)
  | .verifyFile _ => none

/-! ## Packet deserialization (`ProtocolConnection.cpp`, `on_packet_received`)

`decode_packet` mirrors the switch on the leading 16-bit tag.  The
`dispatch` lambda of the source delivers the packet only when the whole
payload has been consumed; otherwise it raises the protocol error
`"failed to consume whole packet"`.  Tags other than 1–6 (including
VerifyFile's tag 7) fall into the `default` case and raise
`"invalid packet id"`.  `read_string` consumes the remainder of the
payload.  The source constructs `packets::CreateFile` without the `flags`
member, leaving it value-initialized to 0. -/

inductive DecodeResult where
  | delivered (p : Packet)
  | protocolError (msg : String)
deriving Repr, DecidableEq

def dispatch (r : BReader) (p : Packet) : DecodeResult :=
  if r.remaining_size = 0 then .delivered p
  else .protocolError "failed to consume whole packet"

def decode_packet (payload : List Nat) : DecodeResult :=
  match BReader.read_u16 ⟨payload⟩ with
  | none => .protocolError "failed to deserialize packet id"
  | some (packet_id, r) =>
    if packet_id = 1 then
      dispatch r .receiverHello
    else if packet_id = 2 then
      dispatch r .senderHello
    else if packet_id = 3 then
      match r.read_u8 with
      | none => .protocolError "failed to deserialize acknowledge packet"
      | some (accepted, r) => dispatch r (.acknowledged (accepted ≠ 0))
    else if packet_id = 4 then
      match r.read_bytes r.remaining_size with
      | none => .protocolError "failed to deserialize create directory packet"
      | some (path, r) => dispatch r (.createDirectory path)
    else if packet_id = 5 then
      match r.read_u64 with
      | none => .protocolError "failed to deserialize create file packet size"
      | some (size, r) =>
        match r.read_bytes r.remaining_size with
        | none => .protocolError "failed to deserialize create file packet path"
        | some (path, r) => dispatch r (.createFile path size 0)
    else if packet_id = 6 then
      match r.read_bytes r.remaining_size with
      | none => .protocolError "failed to deserialize file chunk packet"
      | some (data, r) => dispatch r (.fileChunk data)
    else
      .protocolError "invalid packet id"

/-- The connection-level effect of one frame's payload: on a successful
decode the typed handler is invoked with the packet and the connection stays
alive; on a protocol error `protocol_error` marks the connection not-alive
and no handler runs (`ProtocolConnection::protocol_error`). -/
def on_frame_payload (payload : List Nat) : Option Packet × Bool :=
  match decode_packet payload with
  | .delivered p => (some p, true)
  | .protocolError _ => (none, false)

/-! ## Frame codec (`Framing.cpp`)

The receiver state keeps the committed bytes (`buffer[0 .. used_size)` of
the source, modelled directly as the list `data`), the `receive_buffer_size`
window and the optional `pending_frame_size` (the source's sentinel
`invalid_size` is modelled by `none`).  `prepare_receive_buffer` /
`commit_received_data` append received bytes to `data`. -/

def frame_header_magic : Nat := 0xf150ccc2
def frame_header_size : Nat := 8
def frame_max_size : Nat := 8 * 1024 * 1024

structure FrameReceiver where
  data : List Nat
  receive_buffer_size : Nat
  pending_frame_size : Option Nat
deriving Repr, DecidableEq

/-- A fresh receiver: empty buffer, 16 KiB receive window, no pending size. -/
def FrameReceiver.init : FrameReceiver :=
  ⟨[], 16 * 1024, none⟩

/-- `FrameReceiver::receive` / `commit_received_data`: the received bytes are
appended to the committed region. -/
def FrameReceiver.commit (r : FrameReceiver) (bytes : List Nat) : FrameReceiver :=
  { r with data := r.data ++ bytes }

inductive FrameResult where
  | malformedStream
  | needMoreData
  | receivedFrame
deriving Repr, DecidableEq

structure FrameUpdate where
  result : FrameResult
  payload : List Nat
  state : FrameReceiver
deriving Repr, DecidableEq

/-- Second half of `FrameReceiver::update`: if a pending size is set and the
buffer holds that many bytes, yield the frame's payload (header stripped). -/
def FrameReceiver.update_pending (r : FrameReceiver) : FrameUpdate :=
  match r.pending_frame_size with
  | some s =>
    if s ≤ r.data.length then ⟨.receivedFrame, (r.data.take s).drop frame_header_size, r⟩
    else ⟨.needMoreData, [], r⟩
  | none => ⟨.needMoreData, [], r⟩

/-- `FrameReceiver::update`.  With no pending size and at least 8 buffered
bytes the header is parsed: a magic mismatch or an out-of-bounds declared
size yields `MalformedStream`; otherwise the declared size becomes the
pending frame size and the receive window grows to at least that size.
Then (and in every other case) the pending-frame check runs. -/
def FrameReceiver.update (r : FrameReceiver) : FrameUpdate :=
  if r.pending_frame_size = none ∧ frame_header_size ≤ r.data.length then
    match BReader.read_u32 ⟨r.data⟩ with
    | none => ⟨.malformedStream, [], r⟩
    | some (magic, rest) =>
      if magic ≠ frame_header_magic then ⟨.malformedStream, [], r⟩
      else
        match rest.read_u32 with
        | none => ⟨.malformedStream, [], r⟩
        | some (frame_size, _) =>
          if frame_size ≤ frame_header_size ∨ frame_size > frame_max_size then
            ⟨.malformedStream, [], r⟩
          else
            FrameReceiver.update_pending
              { r with
                pending_frame_size := some frame_size,
                receive_buffer_size := max r.receive_buffer_size frame_size }
  else
    FrameReceiver.update_pending r

/-- `FrameSender::prepare`: clear the buffer and write the magic plus a
`0xffffffff` length placeholder; the caller then serializes the packet
after it. -/
def FrameSender.prepare : List Nat :=
  u32_to_bytes frame_header_magic ++ u32_to_bytes (2 ^ 32 - 1)

/-- `FrameSender::finalize`: fail (empty span, reported as a framing error)
when the total size is outside `(8, 8 MiB]`, otherwise patch the total
length into bytes 4–8 of the header. -/
def FrameSender.finalize (buffer : List Nat) : Option (List Nat) :=
  if buffer.length ≤ frame_header_size ∨ buffer.length > frame_max_size then none
  else some (buffer.take 4 ++ u32_to_bytes buffer.length ++ buffer.drop 8)

/-- The complete frame for payload `P`: magic, total length `8 + |P|`
(big-endian 32-bit), then the payload. -/
def frame_of (payload : List Nat) : List Nat :=
  u32_to_bytes frame_header_magic ++ u32_to_bytes (frame_header_size + payload.length) ++ payload

/-! ## Receiver state machine (`tools/receiver/Connection.cpp`)

Paths are `List Char`.  The filesystem visible to one connection is a list
of entries (path plus directory flag); opening a file for writing creates
an entry, `std::filesystem::remove` deletes it, `create_directories` adds a
directory entry.  Responses of external filesystem calls that can fail
(`create_directories`, `base::File` open) enter as boolean parameters.
The zstd decompressor is external; `process_downloaded_chunk` is modelled
on the plaintext bytes it produces for the chunk (for an uncompressed
download these are the chunk bytes themselves). -/

structure FsEntry where
  path : List Char
  is_dir : Bool
deriving Repr, DecidableEq

def fs_exists (fs : List FsEntry) (p : List Char) : Bool :=
  fs.any fun e => e.path = p

def fs_exists_dir (fs : List FsEntry) (p : List Char) : Bool :=
  fs.any fun e => e.path = p ∧ e.is_dir

def fs_remove (fs : List FsEntry) (p : List Char) : List FsEntry :=
  fs.filter fun e => e.path ≠ p

/-- `virtual_path.find("::") != npos`: does the path contain the two-character
substring `"::"`? -/
def contains_double_colon : List Char → Bool
  | c0 :: c1 :: rest => (c0 = ':' && c1 = ':') || contains_double_colon (c1 :: rest)
  | _ => false

inductive RState where
  | waitingForHello
  | idle
  | downloading
  | waitingForHash
deriving Repr, DecidableEq

structure Download where
  fs_path : List Char
  virtual_path : List Char
  file_size : Nat
  downloaded_size : Nat
  is_compressed : Bool
deriving Repr, DecidableEq

structure RecvConn where
  alive : Bool
  state : RState
  receive_directory : List Char
  download : Option Download
  fs : List FsEntry
  acks_sent : List Bool
deriving Repr, DecidableEq

/-- `receiver::Connection::cleanup`: if a download context exists, destroy
it and unlink the partially-written destination file. -/
def RecvConn.cleanup (c : RecvConn) : RecvConn :=
  match c.download with
  | some d => { c with download := none, fs := fs_remove c.fs d.fs_path }
  | none => c

/-- `Connection::error` followed by `receiver::Connection::on_error`:
mark the connection not-alive, then clean up. -/
def RecvConn.on_error (c : RecvConn) : RecvConn :=
  RecvConn.cleanup { c with alive := false }

/-- `ProtocolConnection::protocol_error` followed by
`receiver::Connection::on_protocol_error`: mark not-alive, then clean up. -/
def RecvConn.protocol_error (c : RecvConn) : RecvConn :=
  RecvConn.cleanup { c with alive := false }

/-- `Connection::disconnect` followed by
`receiver::Connection::on_disconnected`: mark not-alive, then clean up. -/
def RecvConn.on_disconnected (c : RecvConn) : RecvConn :=
  RecvConn.cleanup { c with alive := false }

/-- `send_packet(Acknowledged{accepted})`, recorded in the model as the
list of acknowledgement flags sent. -/
def RecvConn.send_ack (c : RecvConn) (accepted : Bool) : RecvConn :=
  { c with acks_sent := c.acks_sent ++ [accepted] }

/-- `receiver::Connection::to_fs_path`: reject (with a protocol error) any
virtual path containing `"::"`, otherwise join it under the configured
receive directory with a `/`. -/
def to_fs_path (receive_directory virtual_path : List Char) : Option (List Char) :=
  if contains_double_colon virtual_path then none
  else some (receive_directory ++ '/' :: virtual_path)

/-- `receiver::Connection::create_directory`.  `mkdir_ok` is the outcome of
`std::filesystem::create_directories` when it is called.  Returns whether
the directory request was accepted, with the updated connection. -/
def RecvConn.create_directory (c : RecvConn) (virtual_path : List Char) (mkdir_ok : Bool) :
    Bool × RecvConn :=
  match to_fs_path c.receive_directory virtual_path with
  | none => (false, c.protocol_error)
  | some fs_path =>
    if fs_exists_dir c.fs fs_path then (true, c)
    else if mkdir_ok then (true, { c with fs := c.fs ++ [⟨fs_path, true⟩] })
    else (false, c.protocol_error)

/-- `receiver::Connection::finish_chunks_download`. -/
def RecvConn.finish_chunks_download (c : RecvConn) : RecvConn :=
  { c with state := .waitingForHash }

/-- `receiver::Connection::start_file_download`.  `open_ok` is whether
opening the destination for writing succeeds when it is attempted (a
successful open creates the file).  Checked in source order: path
conversion, existing destination, open, then the download context is
created and, for a declared size of 0, the download finishes at once. -/
def RecvConn.start_file_download (c : RecvConn) (virtual_path : List Char)
    (file_size flags : Nat) (open_ok : Bool) : Bool × RecvConn :=
  match to_fs_path c.receive_directory virtual_path with
  | none => (false, c.protocol_error)
  | some fs_path =>
    if fs_exists c.fs fs_path then (false, c.protocol_error)
    else if ¬ open_ok then (false, c.protocol_error)
    else
      let is_compressed := flags % 2 = 1
      let d : Download := ⟨fs_path, virtual_path, file_size, 0, is_compressed⟩
      let c1 : RecvConn :=
        { c with
          state := .downloading,
          download := some d,
          fs := c.fs ++ [⟨fs_path, false⟩] }
      if file_size = 0 then (true, c1.finish_chunks_download) else (true, c1)

/-- `receiver::Connection::process_downloaded_chunk`, at the level of the
plaintext bytes produced for the chunk: write them to the file (`write_ok`
is the filesystem's response), add their count to `downloaded_size`,
protocol-error on over-run, and finish the chunk download when the declared
size is reached exactly. -/
def RecvConn.process_downloaded_chunk (c : RecvConn) (plaintext : List Nat) (write_ok : Bool) :
    RecvConn :=
  match c.download with
  | none => c
  | some d =>
    if ¬ write_ok then c.protocol_error
    else
      let d' := { d with downloaded_size := d.downloaded_size + plaintext.length }
      let c' := { c with download := some d' }
      if d'.downloaded_size > d'.file_size then c'.protocol_error
      else if d'.downloaded_size = d'.file_size then c'.finish_chunks_download
      else c'

/-- `on_packet_received(CreateDirectory)`: only legal in `Idle`; the request
outcome is acknowledged either way. -/
def RecvConn.on_create_directory (c : RecvConn) (virtual_path : List Char) (mkdir_ok : Bool) :
    RecvConn :=
  if c.state = .idle then
    let (created, c') := c.create_directory virtual_path mkdir_ok
    c'.send_ack created
  else c.protocol_error

/-- `on_packet_received(CreateFile)`: only legal in `Idle`; the request
outcome is acknowledged either way. -/
def RecvConn.on_create_file (c : RecvConn) (virtual_path : List Char)
    (file_size flags : Nat) (open_ok : Bool) : RecvConn :=
  if c.state = .idle then
    let (started, c') := c.start_file_download virtual_path file_size flags open_ok
    c'.send_ack started
  else c.protocol_error

/-- `on_packet_received(FileChunk)`: only legal while `Downloading`. -/
def RecvConn.on_file_chunk (c : RecvConn) (plaintext : List Nat) (write_ok : Bool) : RecvConn :=
  if c.state = .downloading then c.process_downloaded_chunk plaintext write_ok
  else c.protocol_error

/-! ## Sender upload pipeline (`tools/sender/Connection.cpp`,
`tools/sender/CompressionEnv.cpp`) -/

def max_chunk_size : Nat := 128 * 1024

/-- `sender::Connection::should_compress_file`: the per-file compression
decision.  The body is `return false;` — it consults neither its arguments
nor the process environment. -/
def should_compress_file (fs_path : List Char) (size : Nat) : Bool :=
  false

/-- `CompressionEnv::is_compression_enabled`: reads `FT_DISABLE_COMPRESSION`
(modelled as the optional environment value) and reports `false` exactly for
the values `"1"` and `"ON"`.  In the source it is referenced only by a log
line in `Sender.cpp`, never by the per-file decision. -/
def is_compression_enabled (env_value : Option (List Char)) : Bool :=
  match env_value with
  | some v => if v = ['1'] then false else if v = ['O', 'N'] then false else true
  | none => true

/-- The flags word computed in `sender::Connection::start_file_upload`:
starts at 0 and gains `flag_compressed` (bit 0) only when
`should_compress_file` answers true. -/
def sender_create_file_flags (fs_path : List Char) (file_size : Nat) : Nat :=
  if should_compress_file fs_path file_size then 1 else 0

/-- The read loop of `sender::Connection::upload_accepted_file` on the
uncompressed path: the file content is consumed in blocks of at most
128 KiB and each block is sent unmodified as one FileChunk. -/
def chunk_content (content : List Nat) : List (List Nat) :=
  if content = [] then []
  else content.take max_chunk_size :: chunk_content (content.drop max_chunk_size)
termination_by content.length
decreasing_by
  simp only [List.length_drop]
  have : content.length ≠ 0 := fun h => by
    simp_all [List.length_eq_zero]
  simp [max_chunk_size]
  omega

/-- The FileChunk packets the sender emits for an uncompressed file. -/
def upload_chunk_packets (content : List Nat) : List Packet :=
  (chunk_content content).map .fileChunk

theorem chunk_content_flatten (content : List Nat) :
    (chunk_content content).flatten = content := by
  induction content using chunk_content.induct with
  | case1 => simp [chunk_content]
  | case2 c h ih =>
    rw [chunk_content, if_neg h]
    simp [ih]

/-! ## Claim theorems -/

/-- C1.  The claim asserts decode(encode(Q)) = Q for all seven packet kinds
of §3, with delivery to the matching typed handler.  The code falsifies it:
`serialize_packet` for VerifyFile is declared in `ProtocolConnection.hpp`
(and called by the sender) but has no definition in
`ProtocolConnection.cpp`, the deserializer's switch has no VerifyFile case,
so the VerifyFile tag 7 falls into `default` and raises the protocol error
`invalid packet id` instead of reaching the VerifyFile handler, and a
CreateFile packet with the compressed flag set loses its flags on the round
trip because neither side touches the flags word. -/
theorem c1_packet_round_trip_fails_for_verify_file :
    decode_packet (u16_to_bytes 7 ++ u64_to_bytes 0xdeadbeef)
      = .protocolError "invalid packet id"
    ∧ serialize_packet (.verifyFile 0xdeadbeef) = none
    ∧ (serialize_packet (.createFile [120] 3 1)).map decode_packet
      = some (.delivered (.createFile [120] 3 0)) := by
  refine ⟨by decide, rfl, by decide⟩

/-- C2.  The claim says the CreateFile wire format is tag, 8-byte big-endian
size, 2-byte big-endian flags word, then the path.  The code writes no
flags word at all (`serialize_packet(CreateFile)` emits tag, size, path)
and the deserializer reads none: a payload that carries the spec's flags
word `0x00 0x01` before the path `"x"` decodes as a CreateFile whose path
is the three bytes `00 01 78` and whose flags are 0. -/
theorem c2_createfile_serialization_has_no_flags_word :
    serialize_packet (.createFile [120] 3 1)
      = some [0, 5, 0, 0, 0, 0, 0, 0, 0, 3, 120]
    ∧ decode_packet [0, 5, 0, 0, 0, 0, 0, 0, 0, 3, 0, 1, 120]
      = .delivered (.createFile [0, 1, 120] 3 0) := by
  refine ⟨by decide, by decide⟩

/-- C8.  Any leading 16-bit tag outside §3's set (0, or 8 and above) makes
`on_packet_received` raise a protocol error, and for the fixed-size packet
bodies (ReceiverHello, SenderHello, Acknowledged) any trailing payload
bytes after the decoded fields make the `dispatch` lambda raise a protocol
error: in both cases the connection is marked not-alive and no typed
handler is invoked. -/
theorem c8_unknown_tag_and_leftover_bytes_are_protocol_errors
    (t : Nat) (ht : t < 65536) (hout : t = 0 ∨ 8 ≤ t)
    (rest extra : List Nat) (hx : extra ≠ []) (b : Nat) :
    on_frame_payload (u16_to_bytes t ++ rest) = (none, false)
    ∧ on_frame_payload (u16_to_bytes 1 ++ extra) = (none, false)
    ∧ on_frame_payload (u16_to_bytes 2 ++ extra) = (none, false)
    ∧ on_frame_payload (u16_to_bytes 3 ++ b :: extra) = (none, false) := by
  have hlen : extra.length ≠ 0 := by
    simpa [List.length_eq_zero] using hx
  have ht16 : bytes_to_u16 (t / 256 % 256) (t % 256) = t := by
    have h := bytes_to_u16_u16_to_bytes t (by omega)
    norm_num at h
    exact h
  refine ⟨?_, ?_, ?_, ?_⟩
  · have h1 : t ≠ 1 := by omega
    have h2 : t ≠ 2 := by omega
    have h3 : t ≠ 3 := by omega
    have h4 : t ≠ 4 := by omega
    have h5 : t ≠ 5 := by omega
    have h6 : t ≠ 6 := by omega
    simp [on_frame_payload, decode_packet, u16_to_bytes, BReader.read_u16, ht16,
      h1, h2, h3, h4, h5, h6]
  · simp [on_frame_payload, decode_packet, u16_to_bytes, BReader.read_u16,
      dispatch, BReader.remaining_size, bytes_to_u16, hlen]
  · simp [on_frame_payload, decode_packet, u16_to_bytes, BReader.read_u16,
      dispatch, BReader.remaining_size, bytes_to_u16, hlen]
  · simp [on_frame_payload, decode_packet, u16_to_bytes, BReader.read_u16,
      BReader.read_u8, dispatch, BReader.remaining_size, bytes_to_u16, hlen]

/-- Witness for C8 at tag 9, trailing byte 5, acknowledge byte 1. -/
theorem c8_unknown_tag_and_leftover_bytes_witness :
    (9 < 65536 ∧ (9 = 0 ∨ 8 ≤ 9) ∧ ([5] : List Nat) ≠ [])
    ∧ (on_frame_payload (u16_to_bytes 9 ++ []) = (none, false)
       ∧ on_frame_payload (u16_to_bytes 1 ++ [5]) = (none, false)
       ∧ on_frame_payload (u16_to_bytes 2 ++ [5]) = (none, false)
       ∧ on_frame_payload (u16_to_bytes 3 ++ 1 :: [5]) = (none, false)) :=
  ⟨⟨by decide, by decide, by decide⟩,
   c8_unknown_tag_and_leftover_bytes_are_protocol_errors 9 (by decide) (by decide)
     [] [5] (by decide) 1⟩

theorem fs_exists_fs_remove (fs : List FsEntry) (p : List Char) :
    fs_exists (fs_remove fs p) p = false := by
  induction fs with
  | nil => rfl
  | cons e fs ih =>
    by_cases h : e.path = p <;> simp [fs_exists, fs_remove, h, ih]

theorem RecvConn.cleanup_state (c : RecvConn) : c.cleanup.state = c.state := by
  unfold RecvConn.cleanup
  split <;> rfl

theorem RecvConn.cleanup_alive (c : RecvConn) : c.cleanup.alive = c.alive := by
  unfold RecvConn.cleanup
  split <;> rfl

theorem RecvConn.protocol_error_state (c : RecvConn) : c.protocol_error.state = c.state := by
  simp [RecvConn.protocol_error, RecvConn.cleanup_state]

theorem RecvConn.protocol_error_alive (c : RecvConn) : c.protocol_error.alive = false := by
  simp [RecvConn.protocol_error, RecvConn.cleanup_alive]

/-- C5.  For a connection that is downloading a file with declared size `N`:
processing a chunk whose plaintext pushes the accumulated count past `N`
raises a protocol error (the connection is marked not-alive); the
connection is in `WaitingForHash` after the chunk exactly when the
accumulated count equals `N`; and a CreateFile with size 0 that is accepted
moves the connection to `WaitingForHash` immediately. -/
theorem c5_overrun_rejected_and_waiting_for_hash_exact
    (c : RecvConn) (d : Download) (plaintext : List Nat)
    (hs : c.state = .downloading) (hd : c.download = some d)
    (c2 : RecvConn) (vpath : List Char) (flags : Nat)
    (hs2 : c2.state = .idle)
    (hcc : contains_double_colon vpath = false)
    (hex : fs_exists c2.fs (c2.receive_directory ++ '/' :: vpath) = false) :
    (d.downloaded_size + plaintext.length > d.file_size →
       (c.on_file_chunk plaintext true).alive = false)
    ∧ ((c.on_file_chunk plaintext true).state = .waitingForHash
         ↔ d.downloaded_size + plaintext.length = d.file_size)
    ∧ (c2.on_create_file vpath 0 flags true).state = .waitingForHash := by
  refine ⟨?_, ?_, ?_⟩
  · intro hover
    simp [RecvConn.on_file_chunk, hs, RecvConn.process_downloaded_chunk, hd, hover,
      RecvConn.protocol_error_alive]
  · by_cases hover : d.downloaded_size + plaintext.length > d.file_size
    · have hne : ¬ d.downloaded_size + plaintext.length = d.file_size := by omega
      simp [RecvConn.on_file_chunk, hs, RecvConn.process_downloaded_chunk, hd, hover,
        RecvConn.protocol_error_state, hne]
    · by_cases heq : d.downloaded_size + plaintext.length = d.file_size
      · simp [RecvConn.on_file_chunk, hs, RecvConn.process_downloaded_chunk, hd, hover, heq,
          RecvConn.finish_chunks_download]
      · simp [RecvConn.on_file_chunk, hs, RecvConn.process_downloaded_chunk, hd, hover, heq]
  · simp [RecvConn.on_create_file, hs2, RecvConn.start_file_download, to_fs_path, hcc, hex,
      RecvConn.finish_chunks_download, RecvConn.send_ack]

/-- Witness for C5: a connection mid-download of a 2-byte file that has
received 1 byte, processing a 1-byte chunk; and an idle connection
accepting `CreateFile{path="a", size=0}`. -/
theorem c5_overrun_rejected_and_waiting_for_hash_witness :
    ((RecvConn.mk true .downloading ['d'] (some ⟨['d', '/', 'a'], ['a'], 2, 1, false⟩) [] []).state
        = .downloading
     ∧ (RecvConn.mk true .downloading ['d'] (some ⟨['d', '/', 'a'], ['a'], 2, 1, false⟩) [] []).download
        = some ⟨['d', '/', 'a'], ['a'], 2, 1, false⟩
     ∧ (RecvConn.mk true .idle ['d'] none [] []).state = .idle
     ∧ contains_double_colon ['a'] = false
     ∧ fs_exists (RecvConn.mk true .idle ['d'] none [] []).fs (['d'] ++ '/' :: ['a']) = false)
    ∧ ((1 + ([7] : List Nat).length > 2 →
          ((RecvConn.mk true .downloading ['d'] (some ⟨['d', '/', 'a'], ['a'], 2, 1, false⟩) [] []).on_file_chunk
            [7] true).alive = false)
       ∧ (((RecvConn.mk true .downloading ['d'] (some ⟨['d', '/', 'a'], ['a'], 2, 1, false⟩) [] []).on_file_chunk
            [7] true).state = .waitingForHash ↔ 1 + ([7] : List Nat).length = 2)
       ∧ ((RecvConn.mk true .idle ['d'] none [] []).on_create_file ['a'] 0 0 true).state
          = .waitingForHash) :=
  ⟨⟨by decide, by decide, by decide, by decide, by decide⟩,
   c5_overrun_rejected_and_waiting_for_hash_exact
     (RecvConn.mk true .downloading ['d'] (some ⟨['d', '/', 'a'], ['a'], 2, 1, false⟩) [] [])
     ⟨['d', '/', 'a'], ['a'], 2, 1, false⟩ [7] (by decide) (by decide)
     (RecvConn.mk true .idle ['d'] none [] []) ['a'] 0 (by decide) (by decide) (by decide)⟩

/-- C6.  A CreateDirectory or CreateFile whose path contains `"::"` is
rejected in `to_fs_path`: the receiver raises a protocol error (not-alive),
touches no filesystem entry, creates no download context, and acknowledges
the request as not accepted; any path free of `"::"` is joined under the
configured receive directory. -/
theorem c6_double_colon_paths_rejected (c : RecvConn) (vpath : List Char)
    (mkdir_ok open_ok : Bool) (size flags : Nat)
    (hs : c.state = .idle) (hd : c.download = none) :
    (contains_double_colon vpath = true →
       (c.on_create_directory vpath mkdir_ok).alive = false
       ∧ (c.on_create_directory vpath mkdir_ok).fs = c.fs
       ∧ (c.on_create_directory vpath mkdir_ok).acks_sent = c.acks_sent ++ [false]
       ∧ (c.on_create_file vpath size flags open_ok).alive = false
       ∧ (c.on_create_file vpath size flags open_ok).fs = c.fs
       ∧ (c.on_create_file vpath size flags open_ok).download = none
       ∧ (c.on_create_file vpath size flags open_ok).acks_sent = c.acks_sent ++ [false])
    ∧ (contains_double_colon vpath = false →
       to_fs_path c.receive_directory vpath = some (c.receive_directory ++ '/' :: vpath)) := by
  constructor
  · intro hcc
    simp [RecvConn.on_create_directory, RecvConn.on_create_file, hs,
      RecvConn.create_directory, RecvConn.start_file_download, to_fs_path, hcc,
      RecvConn.protocol_error, RecvConn.cleanup, hd, RecvConn.send_ack]
  · intro hcc
    simp [to_fs_path, hcc]

/-- Witness for C6 at path `"a::b"` (rejected) and path `"a"` (joined). -/
theorem c6_double_colon_paths_witness :
    ((RecvConn.mk true .idle ['d'] none [] []).state = .idle
     ∧ (RecvConn.mk true .idle ['d'] none [] []).download = none)
    ∧ ((contains_double_colon ['a', ':', ':', 'b'] = true →
          ((RecvConn.mk true .idle ['d'] none [] []).on_create_directory
              ['a', ':', ':', 'b'] true).alive = false
          ∧ ((RecvConn.mk true .idle ['d'] none [] []).on_create_directory
              ['a', ':', ':', 'b'] true).fs = (RecvConn.mk true .idle ['d'] none [] []).fs
          ∧ ((RecvConn.mk true .idle ['d'] none [] []).on_create_directory
              ['a', ':', ':', 'b'] true).acks_sent
            = (RecvConn.mk true .idle ['d'] none [] []).acks_sent ++ [false]
          ∧ ((RecvConn.mk true .idle ['d'] none [] []).on_create_file
              ['a', ':', ':', 'b'] 7 0 true).alive = false
          ∧ ((RecvConn.mk true .idle ['d'] none [] []).on_create_file
              ['a', ':', ':', 'b'] 7 0 true).fs = (RecvConn.mk true .idle ['d'] none [] []).fs
          ∧ ((RecvConn.mk true .idle ['d'] none [] []).on_create_file
              ['a', ':', ':', 'b'] 7 0 true).download = none
          ∧ ((RecvConn.mk true .idle ['d'] none [] []).on_create_file
              ['a', ':', ':', 'b'] 7 0 true).acks_sent
            = (RecvConn.mk true .idle ['d'] none [] []).acks_sent ++ [false])
       ∧ (contains_double_colon ['a', ':', ':', 'b'] = false →
          to_fs_path (RecvConn.mk true .idle ['d'] none [] []).receive_directory
              ['a', ':', ':', 'b']
            = some ((RecvConn.mk true .idle ['d'] none [] []).receive_directory
                ++ '/' :: ['a', ':', ':', 'b']))) :=
  ⟨⟨by decide, by decide⟩,
   c6_double_colon_paths_rejected (RecvConn.mk true .idle ['d'] none [] [])
     ['a', ':', ':', 'b'] true true 7 0 (by decide) (by decide)⟩

/-- C7.  Whichever of the three termination paths ends the connection —
transport error (`on_error`), protocol error (`on_protocol_error`), or
disconnect (`on_disconnected`) — while a download context is live, the
handler runs `cleanup`: the download context is destroyed and the
partially-written destination file is unlinked, so it does not exist when
the worker's `while alive: update()` loop exits. -/
theorem c7_partial_download_removed_on_termination (c : RecvConn) (d : Download)
    (hd : c.download = some d) :
    (c.on_error.download = none ∧ c.on_error.alive = false
       ∧ fs_exists c.on_error.fs d.fs_path = false)
    ∧ (c.protocol_error.download = none ∧ c.protocol_error.alive = false
       ∧ fs_exists c.protocol_error.fs d.fs_path = false)
    ∧ (c.on_disconnected.download = none ∧ c.on_disconnected.alive = false
       ∧ fs_exists c.on_disconnected.fs d.fs_path = false) := by
  refine ⟨?_, ?_, ?_⟩ <;>
    simp [RecvConn.on_error, RecvConn.protocol_error, RecvConn.on_disconnected,
      RecvConn.cleanup, hd, fs_exists_fs_remove]

/-- Witness for C7: a downloading connection whose partial file `d/a` is on
the model filesystem. -/
theorem c7_partial_download_removed_witness :
    (RecvConn.mk true .downloading ['d'] (some ⟨['d', '/', 'a'], ['a'], 9, 4, false⟩)
        [⟨['d', '/', 'a'], false⟩] []).download = some ⟨['d', '/', 'a'], ['a'], 9, 4, false⟩
    ∧ (((RecvConn.mk true .downloading ['d'] (some ⟨['d', '/', 'a'], ['a'], 9, 4, false⟩)
          [⟨['d', '/', 'a'], false⟩] []).on_error.download = none
        ∧ (RecvConn.mk true .downloading ['d'] (some ⟨['d', '/', 'a'], ['a'], 9, 4, false⟩)
          [⟨['d', '/', 'a'], false⟩] []).on_error.alive = false
        ∧ fs_exists (RecvConn.mk true .downloading ['d']
            (some ⟨['d', '/', 'a'], ['a'], 9, 4, false⟩)
            [⟨['d', '/', 'a'], false⟩] []).on_error.fs ['d', '/', 'a'] = false)
       ∧ ((RecvConn.mk true .downloading ['d'] (some ⟨['d', '/', 'a'], ['a'], 9, 4, false⟩)
            [⟨['d', '/', 'a'], false⟩] []).protocol_error.download = none
          ∧ (RecvConn.mk true .downloading ['d'] (some ⟨['d', '/', 'a'], ['a'], 9, 4, false⟩)
            [⟨['d', '/', 'a'], false⟩] []).protocol_error.alive = false
          ∧ fs_exists (RecvConn.mk true .downloading ['d']
              (some ⟨['d', '/', 'a'], ['a'], 9, 4, false⟩)
              [⟨['d', '/', 'a'], false⟩] []).protocol_error.fs ['d', '/', 'a'] = false)
       ∧ ((RecvConn.mk true .downloading ['d'] (some ⟨['d', '/', 'a'], ['a'], 9, 4, false⟩)
            [⟨['d', '/', 'a'], false⟩] []).on_disconnected.download = none
          ∧ (RecvConn.mk true .downloading ['d'] (some ⟨['d', '/', 'a'], ['a'], 9, 4, false⟩)
            [⟨['d', '/', 'a'], false⟩] []).on_disconnected.alive = false
          ∧ fs_exists (RecvConn.mk true .downloading ['d']
              (some ⟨['d', '/', 'a'], ['a'], 9, 4, false⟩)
              [⟨['d', '/', 'a'], false⟩] []).on_disconnected.fs ['d', '/', 'a'] = false)) :=
  ⟨by decide,
   c7_partial_download_removed_on_termination
     (RecvConn.mk true .downloading ['d'] (some ⟨['d', '/', 'a'], ['a'], 9, 4, false⟩)
       [⟨['d', '/', 'a'], false⟩] [])
     ⟨['d', '/', 'a'], ['a'], 9, 4, false⟩ (by decide)⟩

/-- C10.  When the destination path of an incoming CreateFile already
exists, `start_file_download` raises a protocol error before opening
anything: the connection is not-alive, the filesystem is untouched (the
existing file is neither opened nor truncated, and nothing is created),
no download context exists, the reply is Acknowledged(accepted = false),
and the state enum is unchanged. -/
theorem c10_existing_destination_refused (c : RecvConn) (vpath : List Char)
    (size flags : Nat) (open_ok : Bool)
    (hs : c.state = .idle) (hd : c.download = none)
    (hcc : contains_double_colon vpath = false)
    (hex : fs_exists c.fs (c.receive_directory ++ '/' :: vpath) = true) :
    (c.on_create_file vpath size flags open_ok).alive = false
    ∧ (c.on_create_file vpath size flags open_ok).download = none
    ∧ (c.on_create_file vpath size flags open_ok).fs = c.fs
    ∧ (c.on_create_file vpath size flags open_ok).acks_sent = c.acks_sent ++ [false]
    ∧ (c.on_create_file vpath size flags open_ok).state = c.state := by
  simp [RecvConn.on_create_file, hs, RecvConn.start_file_download, to_fs_path, hcc, hex,
    RecvConn.protocol_error, RecvConn.cleanup, hd, RecvConn.send_ack]

/-- Witness for C10: destination `d/a` already exists as a file. -/
theorem c10_existing_destination_refused_witness :
    ((RecvConn.mk true .idle ['d'] none [⟨['d', '/', 'a'], false⟩] []).state = .idle
     ∧ (RecvConn.mk true .idle ['d'] none [⟨['d', '/', 'a'], false⟩] []).download = none
     ∧ contains_double_colon ['a'] = false
     ∧ fs_exists (RecvConn.mk true .idle ['d'] none [⟨['d', '/', 'a'], false⟩] []).fs
         ((RecvConn.mk true .idle ['d'] none [⟨['d', '/', 'a'], false⟩] []).receive_directory
           ++ '/' :: ['a']) = true)
    ∧ (((RecvConn.mk true .idle ['d'] none [⟨['d', '/', 'a'], false⟩] []).on_create_file
          ['a'] 5 0 true).alive = false
       ∧ ((RecvConn.mk true .idle ['d'] none [⟨['d', '/', 'a'], false⟩] []).on_create_file
          ['a'] 5 0 true).download = none
       ∧ ((RecvConn.mk true .idle ['d'] none [⟨['d', '/', 'a'], false⟩] []).on_create_file
          ['a'] 5 0 true).fs
         = (RecvConn.mk true .idle ['d'] none [⟨['d', '/', 'a'], false⟩] []).fs
       ∧ ((RecvConn.mk true .idle ['d'] none [⟨['d', '/', 'a'], false⟩] []).on_create_file
          ['a'] 5 0 true).acks_sent
         = (RecvConn.mk true .idle ['d'] none [⟨['d', '/', 'a'], false⟩] []).acks_sent ++ [false]
       ∧ ((RecvConn.mk true .idle ['d'] none [⟨['d', '/', 'a'], false⟩] []).on_create_file
          ['a'] 5 0 true).state
         = (RecvConn.mk true .idle ['d'] none [⟨['d', '/', 'a'], false⟩] []).state) :=
  ⟨⟨by decide, by decide, by decide, by decide⟩,
   c10_existing_destination_refused
     (RecvConn.mk true .idle ['d'] none [⟨['d', '/', 'a'], false⟩] [])
     ['a'] 5 0 true (by decide) (by decide) (by decide) (by decide)⟩

/-- C9.  `should_compress_file` returns false for every file and size, so
`start_file_upload` always computes flags = 0 and `upload_accepted_file`
always takes the uncompressed path, whose FileChunk packets carry the raw
file bytes (their concatenation is exactly the file content) — all of this
regardless of the `FT_DISABLE_COMPRESSION` environment value, which only
`CompressionEnv::is_compression_enabled` reads and which feeds nothing but
a log line. -/
theorem c9_sender_never_compresses (env : Option (List Char)) (fs_path : List Char)
    (file_size : Nat) (content : List Nat) :
    should_compress_file fs_path file_size = false
    ∧ sender_create_file_flags fs_path file_size = 0
    ∧ (is_compression_enabled env = true → sender_create_file_flags fs_path file_size = 0)
    ∧ ((chunk_content content).map Packet.fileChunk = upload_chunk_packets content
       ∧ (chunk_content content).flatten = content) :=
  ⟨rfl, rfl, fun _ => rfl, rfl, chunk_content_flatten content⟩

/-- Witness for C9 with the environment set to `"0"` (compression enabled
per the env check) and a 3-byte file. -/
theorem c9_sender_never_compresses_witness :
    is_compression_enabled (some ['0']) = true
    ∧ (should_compress_file ['x'] 3 = false
       ∧ sender_create_file_flags ['x'] 3 = 0
       ∧ (is_compression_enabled (some ['0']) = true → sender_create_file_flags ['x'] 3 = 0)
       ∧ ((chunk_content [1, 2, 3]).map Packet.fileChunk = upload_chunk_packets [1, 2, 3]
          ∧ (chunk_content [1, 2, 3]).flatten = [1, 2, 3])) :=
  ⟨by decide, c9_sender_never_compresses (some ['0']) ['x'] 3 [1, 2, 3]⟩

/-! ### Framing lemmas -/

theorem frame_of_length (P : List Nat) :
    (frame_of P).length = frame_header_size + P.length := by
  simp [frame_of, u32_to_bytes, frame_header_size]
  omega

theorem frame_of_drop8 (P : List Nat) : (frame_of P).drop 8 = P := rfl

theorem FrameReceiver.update_pending_state (r : FrameReceiver) :
    r.update_pending.state = r := by
  unfold FrameReceiver.update_pending
  split
  · split <;> rfl
  · rfl

theorem FrameReceiver.update_of_pending_set (r : FrameReceiver)
    (h : r.pending_frame_size ≠ none) : r.update = r.update_pending := by
  unfold FrameReceiver.update
  rw [if_neg]
  simp [h]

/-- Parsing a well-formed header: with no pending size and a buffer that
starts with the magic and an in-bounds big-endian size `n`, `update`
records `n` as the pending size and grows the window, then proceeds to the
pending-frame check. -/
theorem FrameReceiver.update_parse (r : FrameReceiver) (n : Nat) (tail : List Nat)
    (hp : r.pending_frame_size = none)
    (hd : r.data = u32_to_bytes frame_header_magic ++ u32_to_bytes n ++ tail)
    (hn1 : frame_header_size < n) (hn2 : n ≤ frame_max_size) :
    r.update = FrameReceiver.update_pending
      { r with
        pending_frame_size := some n,
        receive_buffer_size := max r.receive_buffer_size n } := by
  have hn32 : n < 2 ^ 32 := by
    have : frame_max_size < 2 ^ 32 := by norm_num [frame_max_size]
    omega
  have hm := bytes_to_u32_u32_to_bytes frame_header_magic (by norm_num [frame_header_magic])
  have hn := bytes_to_u32_u32_to_bytes n hn32
  have hlen : frame_header_size ≤ r.data.length := by
    simp [hd, u32_to_bytes, frame_header_size]
  unfold FrameReceiver.update
  rw [if_pos ⟨hp, hlen⟩, hd]
  simp only [u32_to_bytes, List.cons_append, List.nil_append, BReader.read_u32, hm, hn]
  rw [if_neg (by simp), if_neg (by omega)]

/-- The pending-frame check on a buffer holding exactly one whole frame. -/
theorem FrameReceiver.update_pending_of_frame (r : FrameReceiver) (P : List Nat)
    (hp : r.pending_frame_size = some (frame_header_size + P.length))
    (hd : r.data = frame_of P) :
    r.update_pending = ⟨.receivedFrame, P, r⟩ := by
  unfold FrameReceiver.update_pending
  have hlen : frame_header_size + P.length ≤ r.data.length := by
    rw [hd, frame_of_length]
  simp only [hp]
  rw [if_pos hlen, hd]
  have htake : (frame_of P).take (frame_header_size + P.length) = frame_of P :=
    List.take_of_length_le (by rw [frame_of_length])
  rw [htake]
  simp [frame_of_drop8, frame_header_size]

theorem FrameReceiver.init_commit (l : List Nat) :
    FrameReceiver.init.commit l = ⟨l, 16 * 1024, none⟩ := by
  simp [FrameReceiver.init, FrameReceiver.commit]

/-- C4.  With no pending frame size and at least 8 buffered bytes,
`update` parses the header in order: wrong magic → `MalformedStream`;
declared total length ≤ 8 or > 8 MiB → `MalformedStream`; otherwise the
declared length becomes the pending frame size and the receive window
grows to at least that length. -/
theorem c4_header_parsing_order (r : FrameReceiver) (b0 b1 b2 b3 s0 s1 s2 s3 : Nat)
    (rest : List Nat) (hp : r.pending_frame_size = none)
    (hdata : r.data = b0 :: b1 :: b2 :: b3 :: s0 :: s1 :: s2 :: s3 :: rest)
    (h0 : b0 < 256) (h1 : b1 < 256) (h2 : b2 < 256) (h3 : b3 < 256) :
    (¬(b0 = 0xf1 ∧ b1 = 0x50 ∧ b2 = 0xcc ∧ b3 = 0xc2) →
       r.update.result = .malformedStream)
    ∧ ((b0 = 0xf1 ∧ b1 = 0x50 ∧ b2 = 0xcc ∧ b3 = 0xc2)
        ∧ (bytes_to_u32 s0 s1 s2 s3 ≤ 8 ∨ bytes_to_u32 s0 s1 s2 s3 > 8 * 1024 * 1024) →
       r.update.result = .malformedStream)
    ∧ ((b0 = 0xf1 ∧ b1 = 0x50 ∧ b2 = 0xcc ∧ b3 = 0xc2)
        ∧ 8 < bytes_to_u32 s0 s1 s2 s3 ∧ bytes_to_u32 s0 s1 s2 s3 ≤ 8 * 1024 * 1024 →
       r.update.state.pending_frame_size = some (bytes_to_u32 s0 s1 s2 s3)
       ∧ r.update.state.receive_buffer_size
         = max r.receive_buffer_size (bytes_to_u32 s0 s1 s2 s3)
       ∧ bytes_to_u32 s0 s1 s2 s3 ≤ r.update.state.receive_buffer_size) := by
  have hmagic_iff : bytes_to_u32 b0 b1 b2 b3 = frame_header_magic
      ↔ (b0 = 0xf1 ∧ b1 = 0x50 ∧ b2 = 0xcc ∧ b3 = 0xc2) := by
    unfold bytes_to_u32 frame_header_magic
    omega
  have hlen : frame_header_size ≤ r.data.length := by
    simp [hdata, frame_header_size]
  refine ⟨?_, ?_, ?_⟩
  · intro hne
    unfold FrameReceiver.update
    rw [if_pos ⟨hp, hlen⟩, hdata]
    simp only [BReader.read_u32]
    rw [if_pos (by rw [Ne, hmagic_iff]; exact hne)]
  · rintro ⟨hmag, hsz⟩
    unfold FrameReceiver.update
    rw [if_pos ⟨hp, hlen⟩, hdata]
    simp only [BReader.read_u32]
    rw [if_neg (by rw [Ne, hmagic_iff]; simp [hmag]), if_pos (by simpa [frame_header_size,
      frame_max_size] using hsz)]
  · rintro ⟨hmag, hlo, hhi⟩
    unfold FrameReceiver.update
    rw [if_pos ⟨hp, hlen⟩, hdata]
    simp only [BReader.read_u32]
    rw [if_neg (by rw [Ne, hmagic_iff]; simp [hmag]),
      if_neg (by simp only [frame_header_size, frame_max_size]; omega)]
    rw [FrameReceiver.update_pending_state]
    exact ⟨rfl, rfl, le_max_right _ _⟩

/-- Witness for C4: an 8-byte buffer whose magic is wrong (all zeros). -/
theorem c4_header_parsing_order_witness :
    ((FrameReceiver.mk [0, 0, 0, 0, 0, 0, 0, 0] (16 * 1024) none).pending_frame_size = none
     ∧ (FrameReceiver.mk [0, 0, 0, 0, 0, 0, 0, 0] (16 * 1024) none).data
       = 0 :: 0 :: 0 :: 0 :: 0 :: 0 :: 0 :: 0 :: []
     ∧ (0 : Nat) < 256
     ∧ ¬((0 : Nat) = 0xf1 ∧ (0 : Nat) = 0x50 ∧ (0 : Nat) = 0xcc ∧ (0 : Nat) = 0xc2))
    ∧ (FrameReceiver.mk [0, 0, 0, 0, 0, 0, 0, 0] (16 * 1024) none).update.result
      = .malformedStream :=
  ⟨⟨by decide, by decide, by decide, by decide⟩,
   (c4_header_parsing_order (FrameReceiver.mk [0, 0, 0, 0, 0, 0, 0, 0] (16 * 1024) none)
     0 0 0 0 0 0 0 0 [] (by decide) (by decide) (by decide) (by decide) (by decide)
     (by decide)).1 (by decide)⟩

theorem frame_of_eq_append (P : List Nat) :
    frame_of P
      = (u32_to_bytes frame_header_magic
          ++ u32_to_bytes (frame_header_size + P.length)) ++ P := by
  simp [frame_of, List.append_assoc]

theorem frame_of_take (P : List Nat) (k : Nat) (hk : 8 ≤ k) :
    (frame_of P).take k
      = u32_to_bytes frame_header_magic ++ u32_to_bytes (frame_header_size + P.length)
        ++ P.take (k - 8) := by
  have hhdr : (u32_to_bytes frame_header_magic
      ++ u32_to_bytes (frame_header_size + P.length)).length = 8 := by
    simp [u32_to_bytes]
  rw [frame_of_eq_append, List.take_append_eq_append_take, hhdr,
    List.take_of_length_le (by rw [hhdr]; exact hk)]

/-- A receiver with no pending size whose buffer holds exactly one
well-formed frame delivers the frame's payload. -/
theorem FrameReceiver.update_full_frame (r : FrameReceiver) (P : List Nat)
    (h1 : 0 < P.length) (h2 : P.length ≤ 8 * 1024 * 1024 - 8)
    (hp : r.pending_frame_size = none) (hd : r.data = frame_of P) :
    r.update.result = .receivedFrame ∧ r.update.payload = P := by
  have hn1 : frame_header_size < frame_header_size + P.length := by
    simp only [frame_header_size]
    omega
  have hn2 : frame_header_size + P.length ≤ frame_max_size := by
    simp only [frame_header_size, frame_max_size]
    omega
  rw [FrameReceiver.update_parse r (frame_header_size + P.length) P hp
      (by rw [hd, frame_of]) hn1 hn2,
    FrameReceiver.update_pending_of_frame _ P rfl (by simpa using hd)]
  exact ⟨rfl, rfl⟩

/-- A receiver whose pending size is already recorded and whose buffer now
holds the whole frame delivers the frame's payload. -/
theorem FrameReceiver.update_full_frame_pending (r : FrameReceiver) (P : List Nat)
    (hp : r.pending_frame_size = some (frame_header_size + P.length))
    (hd : r.data = frame_of P) :
    r.update.result = .receivedFrame ∧ r.update.payload = P := by
  rw [FrameReceiver.update_of_pending_set r (by simp [hp]),
    FrameReceiver.update_pending_of_frame r P hp hd]
  exact ⟨rfl, rfl⟩

/-- C3.  For every payload `P` with `0 < |P| ≤ 8 MiB − 8`:
`prepare()`/`finalize()` produce the frame `magic ‖ 8+|P| ‖ P`; feeding the
whole frame to a fresh reassembler makes `update()` return `ReceivedFrame`
with a reader over exactly `P`; and splitting the frame at any byte
boundary `k` into two commit/update rounds again yields `ReceivedFrame`
over exactly `P` on the second `update()`. -/
theorem c3_framing_round_trip (P : List Nat) (k : Nat)
    (h1 : 0 < P.length) (h2 : P.length ≤ 8 * 1024 * 1024 - 8)
    (hk : k ≤ (frame_of P).length) :
    FrameSender.finalize (FrameSender.prepare ++ P) = some (frame_of P)
    ∧ (FrameReceiver.init.commit (frame_of P)).update.result = .receivedFrame
    ∧ (FrameReceiver.init.commit (frame_of P)).update.payload = P
    ∧ (((FrameReceiver.init.commit ((frame_of P).take k)).update.state.commit
         ((frame_of P).drop k)).update.result = .receivedFrame
       ∧ ((FrameReceiver.init.commit ((frame_of P).take k)).update.state.commit
         ((frame_of P).drop k)).update.payload = P) := by
  have hn1 : frame_header_size < frame_header_size + P.length := by
    simp only [frame_header_size]
    omega
  have hn2 : frame_header_size + P.length ≤ frame_max_size := by
    simp only [frame_header_size, frame_max_size]
    omega
  have hfin : FrameSender.finalize (FrameSender.prepare ++ P) = some (frame_of P) := by
    have hlen : (FrameSender.prepare ++ P).length = frame_header_size + P.length := by
      simp [FrameSender.prepare, u32_to_bytes, frame_header_size]
      omega
    have htake4 : (FrameSender.prepare ++ P).take 4 = u32_to_bytes frame_header_magic := rfl
    have hdrop8 : (FrameSender.prepare ++ P).drop 8 = P := rfl
    unfold FrameSender.finalize
    rw [hlen, if_neg (by simp only [frame_header_size, frame_max_size] at hn2 ⊢; omega),
      htake4, hdrop8]
    rfl
  have hsingle := FrameReceiver.update_full_frame (⟨frame_of P, 16 * 1024, none⟩ :
    FrameReceiver) P h1 h2 rfl rfl
  by_cases hk8 : 8 ≤ k
  · have hparse0 := FrameReceiver.update_parse
      (⟨(frame_of P).take k, 16 * 1024, none⟩ : FrameReceiver)
      (frame_header_size + P.length) (P.take (k - 8)) rfl
      (by simpa using frame_of_take P k hk8) hn1 hn2
    have hsplit := FrameReceiver.update_full_frame_pending
      ((⟨(frame_of P).take k, 16 * 1024, none⟩ : FrameReceiver).update.state.commit
        ((frame_of P).drop k)) P
      (by rw [hparse0, FrameReceiver.update_pending_state]; rfl)
      (by rw [hparse0, FrameReceiver.update_pending_state]
          simp [FrameReceiver.commit, List.take_append_drop])
    rw [FrameReceiver.init_commit, FrameReceiver.init_commit]
    exact ⟨hfin, hsingle.1, hsingle.2, hsplit.1, hsplit.2⟩
  · have hshort : (⟨(frame_of P).take k, 16 * 1024, none⟩ : FrameReceiver).update
        = (⟨(frame_of P).take k, 16 * 1024, none⟩ : FrameReceiver).update_pending := by
      unfold FrameReceiver.update
      rw [if_neg]
      rintro ⟨-, h8⟩
      rw [List.length_take] at h8
      simp only [frame_header_size] at h8
      omega
    have hsplit := FrameReceiver.update_full_frame
      ((⟨(frame_of P).take k, 16 * 1024, none⟩ : FrameReceiver).update.state.commit
        ((frame_of P).drop k)) P h1 h2
      (by rw [hshort, FrameReceiver.update_pending_state]; rfl)
      (by rw [hshort, FrameReceiver.update_pending_state]
          simp [FrameReceiver.commit, List.take_append_drop])
    rw [FrameReceiver.init_commit, FrameReceiver.init_commit]
    exact ⟨hfin, hsingle.1, hsingle.2, hsplit.1, hsplit.2⟩

/-- Witness for C3: the 3-byte payload `01 02 03`, split after the 9th
frame byte. -/
theorem c3_framing_round_trip_witness :
    (0 < ([1, 2, 3] : List Nat).length
     ∧ ([1, 2, 3] : List Nat).length ≤ 8 * 1024 * 1024 - 8
     ∧ 9 ≤ (frame_of [1, 2, 3]).length)
    ∧ (FrameSender.finalize (FrameSender.prepare ++ [1, 2, 3]) = some (frame_of [1, 2, 3])
       ∧ (FrameReceiver.init.commit (frame_of [1, 2, 3])).update.result = .receivedFrame
       ∧ (FrameReceiver.init.commit (frame_of [1, 2, 3])).update.payload = [1, 2, 3]
       ∧ (((FrameReceiver.init.commit ((frame_of [1, 2, 3]).take 9)).update.state.commit
            ((frame_of [1, 2, 3]).drop 9)).update.result = .receivedFrame
          ∧ ((FrameReceiver.init.commit ((frame_of [1, 2, 3]).take 9)).update.state.commit
            ((frame_of [1, 2, 3]).drop 9)).update.payload = [1, 2, 3])) :=
  ⟨⟨by decide, by decide, by decide⟩,
   c3_framing_round_trip [1, 2, 3] 9 (by decide) (by decide) (by decide)⟩

end FileTransfer
